import Mathlib

/-!
# Credence zkp-rust credential verifier: shallow embedding

Shallow embedding of `packages/zkp-rust/program/src/main.rs` (the SP1 guest
program) and of the commit-byte layout decoded by
`packages/zkp-rust/script/src/bin/execute.rs`.

Bytes are modelled as `List Nat` with each entry a value below 256; machine
integers (`u32`, `u64`) are `Nat` with explicit reductions modulo `2^32` /
`2^64` where the source can overflow.
-/

namespace Credence

/-- A byte string: list of byte values (each `< 256`). -/
abbrev Bytes := List Nat

/-- All entries are genuine bytes. -/
def isBytes (bs : Bytes) : Prop := ∀ b ∈ bs, b < 256

instance (bs : Bytes) : Decidable (isBytes bs) := by
  unfold isBytes; infer_instance

/-- `u32::to_be_bytes`: the 4 big-endian bytes of a 32-bit value. -/
def u32be (n : Nat) : Bytes :=
  [n / 2 ^ 24 % 256, n / 2 ^ 16 % 256, n / 2 ^ 8 % 256, n % 256]

/-- `u32::to_le_bytes`: the 4 little-endian bytes of a 32-bit value. -/
def u32le (n : Nat) : Bytes :=
  [n % 256, n / 2 ^ 8 % 256, n / 2 ^ 16 % 256, n / 2 ^ 24 % 256]

/-- `u64::to_le_bytes`: the 8 little-endian bytes of a 64-bit value. -/
def u64le (n : Nat) : Bytes :=
  [n % 256, n / 2 ^ 8 % 256, n / 2 ^ 16 % 256, n / 2 ^ 24 % 256,
   n / 2 ^ 32 % 256, n / 2 ^ 40 % 256, n / 2 ^ 48 % 256, n / 2 ^ 56 % 256]

/-- `u64::to_be_bytes`: the 8 big-endian bytes of a 64-bit value. -/
def u64be (n : Nat) : Bytes :=
  [n / 2 ^ 56 % 256, n / 2 ^ 48 % 256, n / 2 ^ 40 % 256, n / 2 ^ 32 % 256,
   n / 2 ^ 24 % 256, n / 2 ^ 16 % 256, n / 2 ^ 8 % 256, n % 256]

/-- `u32::from_be_bytes` on four bytes. -/
def u32beOf (a b c d : Nat) : Nat :=
  a * 2 ^ 24 + b * 2 ^ 16 + c * 2 ^ 8 + d

/-! ## SHA-256 (FIPS 180-4), executable, over `Bytes` -/

/-- Reduce to a 32-bit word. -/
def w32 (n : Nat) : Nat := n % 2 ^ 32

/-- Right rotation of a 32-bit word by `n` places. -/
def rotr (n x : Nat) : Nat := x / 2 ^ n + x % 2 ^ n * 2 ^ (32 - n)

/-- Logical right shift of a 32-bit word by `n` places. -/
def shr (n x : Nat) : Nat := x / 2 ^ n

/-- Bitwise complement of a 32-bit word. -/
def not32 (x : Nat) : Nat := Nat.xor x (2 ^ 32 - 1)

/-- SHA-256 `Ch` function. -/
def ch (x y z : Nat) : Nat := Nat.xor (Nat.land x y) (Nat.land (not32 x) z)

/-- SHA-256 `Maj` function. -/
def maj (x y z : Nat) : Nat :=
  Nat.xor (Nat.xor (Nat.land x y) (Nat.land x z)) (Nat.land y z)

/-- SHA-256 `Σ₀`. -/
def bsig0 (x : Nat) : Nat := Nat.xor (Nat.xor (rotr 2 x) (rotr 13 x)) (rotr 22 x)

/-- SHA-256 `Σ₁`. -/
def bsig1 (x : Nat) : Nat := Nat.xor (Nat.xor (rotr 6 x) (rotr 11 x)) (rotr 25 x)

/-- SHA-256 `σ₀`. -/
def ssig0 (x : Nat) : Nat := Nat.xor (Nat.xor (rotr 7 x) (rotr 18 x)) (shr 3 x)

/-- SHA-256 `σ₁`. -/
def ssig1 (x : Nat) : Nat := Nat.xor (Nat.xor (rotr 17 x) (rotr 19 x)) (shr 10 x)

/-- The 64 SHA-256 round constants, in decimal. -/
def K256 : List Nat :=
  [1116352408, 1899447441, 3049323471, 3921009573, 961987163, 1508970993,
   2453635748, 2870763221, 3624381080, 310598401, 607225278, 1426881987,
   1925078388, 2162078206, 2614888103, 3248222580, 3835390401, 4022224774,
   264347078, 604807628, 770255983, 1249150122, 1555081692, 1996064986,
   2554220882, 2821834349, 2952996808, 3210313671, 3336571891, 3584528711,
   113926993, 338241895, 666307205, 773529912, 1294757372, 1396182291,
   1695183700, 1986661051, 2177026350, 2456956037, 2730485921, 2820302411,
   3259730800, 3345764771, 3516065817, 3600352804, 4094571909, 275423344,
   430227734, 506948616, 659060556, 883997877, 958139571, 1322822218,
   1537002063, 1747873779, 1955562222, 2024104815, 2227730452, 2361852424,
   2428436474, 2756734187, 3204031479, 3329325298]

/-- Working state of the compression function: eight 32-bit words. -/
structure Hash8 where
  a : Nat
  b : Nat
  c : Nat
  d : Nat
  e : Nat
  f : Nat
  g : Nat
  h : Nat
deriving DecidableEq, Repr

/-- Initial SHA-256 hash value `H⁽⁰⁾`, in decimal. -/
def H0 : Hash8 :=
  ⟨1779033703, 3144134277, 1013904242, 2773480762,
   1359893119, 2600822924, 528734635, 1541459225⟩

/-- SHA-256 padding: append `0x80`, zero bytes to 56 mod 64, then the
bit length as 8 big-endian bytes. -/
def padMessage (msg : Bytes) : Bytes :=
  msg ++ [0x80] ++ List.replicate ((119 - msg.length % 64) % 64) 0
      ++ u64be (msg.length * 8 % 2 ^ 64)

/-- Group a 64-byte block into sixteen big-endian 32-bit words. -/
def toWords : Bytes → List Nat
  | a :: b :: c :: d :: rest => u32beOf a b c d :: toWords rest
  | _ => []

/-- Split into 64-byte blocks; `n` is the number of blocks. -/
def toBlocks : Nat → Bytes → List Bytes
  | 0, _ => []
  | n + 1, bs => bs.take 64 :: toBlocks n (bs.drop 64)

/-- Message-schedule extension: prepend `48` new words to the reversed list of
the first sixteen, then reverse. -/
def extendW : Nat → List Nat → List Nat
  | 0, acc => acc.reverse
  | n + 1, acc =>
    let wt := w32 (ssig1 (acc.getD 1 0) + acc.getD 6 0 + ssig0 (acc.getD 14 0) + acc.getD 15 0)
    extendW n (wt :: acc)

/-- One round of the SHA-256 compression function. -/
def round (s : Hash8) (kw : Nat × Nat) : Hash8 :=
  let t1 := w32 (s.h + bsig1 s.e + ch s.e s.f s.g + kw.1 + kw.2)
  let t2 := w32 (bsig0 s.a + maj s.a s.b s.c)
  ⟨w32 (t1 + t2), s.a, s.b, s.c, w32 (s.d + t1), s.e, s.f, s.g⟩

/-- Process one 64-byte block: 64 rounds, then add into the chaining value. -/
def processBlock (s : Hash8) (block : Bytes) : Hash8 :=
  let ws := extendW 48 (toWords block).reverse
  let t := (K256.zip ws).foldl round s
  ⟨w32 (s.a + t.a), w32 (s.b + t.b), w32 (s.c + t.c), w32 (s.d + t.d),
   w32 (s.e + t.e), w32 (s.f + t.f), w32 (s.g + t.g), w32 (s.h + t.h)⟩

/-- Serialize the final hash value: eight words, each as 4 big-endian bytes. -/
def digestBytes (s : Hash8) : Bytes :=
  u32be s.a ++ u32be s.b ++ u32be s.c ++ u32be s.d
    ++ u32be s.e ++ u32be s.f ++ u32be s.g ++ u32be s.h

/-- SHA-256 of a byte string, as its 32 digest bytes. -/
def sha256 (msg : Bytes) : Bytes :=
  digestBytes ((toBlocks ((padMessage msg).length / 64) (padMessage msg)).foldl processBlock H0)

/-- Equality of `Except` values is decidable when it is on both sides. -/
instance {ε α : Type} [DecidableEq ε] [DecidableEq α] : DecidableEq (Except ε α) := fun x y =>
  match x, y with
  | .ok a, .ok b => if h : a = b then .isTrue (by rw [h]) else .isFalse (by simp [h])
  | .error a, .error b => if h : a = b then .isTrue (by rw [h]) else .isFalse (by simp [h])
  | .ok _, .error _ => .isFalse (by simp)
  | .error _, .ok _ => .isFalse (by simp)

/-! ## Data model (`main.rs` lines 17-51) -/

/-- `CredentialInput` from `program/src/main.rs`: the private witness record.
`subject` is `[u8; 20]`, `credential_type` a `u32`, the three byte vectors are
`Vec<u8>`, and the timestamps are `u64`. -/
structure CredentialInput where
  subject : Bytes
  credential_type : Nat
  credential_data : Bytes
  signature : Bytes
  issuer_pubkey : Bytes
  issued_at : Nat
  expires_at : Nat
  current_time : Nat
deriving DecidableEq, Repr

/-- `PublicOutput` from `program/src/main.rs`: the record committed on success. -/
structure PublicOutput where
  subject : Bytes
  credential_type : Nat
  credential_hash : Bytes
  issued_at : Nat
  expires_at : Nat
deriving DecidableEq, Repr

/-- Abort reasons. The source aborts through `assert!` messages; these
constructors name the distinct failing checks, with the spec's names
(`InvalidIssuance` = "Invalid issuance time", `ClockSkew` = "Current time
before issuance", `Expired` = "Credential has expired", the three claims
errors for the three `return false` sites of `validate_credential_claims`,
the two signature errors for the two `return false` sites of
`verify_signature`), plus `InvalidCredentialType` for the source's
"Invalid credential type" assert, which the spec's error list omits. -/
inductive Err where
  | InvalidCredentialType
  | InvalidIssuance
  | ClockSkew
  | Expired
  | MalformedCredential
  | UnsupportedVersion
  | InsufficientClaims
  | InvalidSignature
  | InvalidPublicKey
deriving DecidableEq, Repr

/-! ## `verify_signature` (`main.rs` lines 55-82) -/

/-- `verify_signature` from `main.rs`: structural length checks only; the
`message` is hashed into `_message_hash` and discarded, then `true` is
returned unconditionally. -/
def verify_signature (message signature pubkey : Bytes) : Bool :=
  if signature.isEmpty || decide (signature.length < 64) then
    false
  else if pubkey.isEmpty || (decide (pubkey.length ≠ 33) && decide (pubkey.length ≠ 65)) then
    false
  else
    true

/-- `verify_signature` with its two `return false` sites labelled:
the first (signature empty or shorter than 64) as `InvalidSignature`, the
second (pubkey empty or of length neither 33 nor 65) as `InvalidPublicKey`. -/
def verifySignatureE (signature pubkey : Bytes) : Except Err Unit :=
  if signature.isEmpty || decide (signature.length < 64) then
    .error .InvalidSignature
  else if pubkey.isEmpty || (decide (pubkey.length ≠ 33) && decide (pubkey.length ≠ 65)) then
    .error .InvalidPublicKey
  else
    .ok ()

/-! ## `compute_credential_hash` (`main.rs` lines 85-101) -/

/-- `compute_credential_hash` from `main.rs`: sequential `hasher.update`
calls on `subject`, `credential_type.to_be_bytes()`, `credential_data`,
`issuer_pubkey`, then `finalize`. An incremental SHA-256 over updates is
SHA-256 of the accumulated bytes, so the accumulator is modelled explicitly. -/
def compute_credential_hash (subject : Bytes) (credential_type : Nat)
    (credential_data issuer_pubkey : Bytes) : Bytes :=
  let acc : Bytes := []
  let acc := acc ++ subject
  let acc := acc ++ u32be credential_type
  let acc := acc ++ credential_data
  let acc := acc ++ issuer_pubkey
  sha256 acc

/-! ## `validate_credential_claims` (`main.rs` lines 104-142) -/

/-- `version`: `u32::from_be_bytes` of `credential_data[0..=3]`. -/
def versionOf (credential_data : Bytes) : Nat :=
  u32beOf (credential_data.getD 0 0) (credential_data.getD 1 0)
    (credential_data.getD 2 0) (credential_data.getD 3 0)

/-- `claim_count`: `u32::from_be_bytes` of `credential_data[4..=7]`. -/
def claimCountOf (credential_data : Bytes) : Nat :=
  u32beOf (credential_data.getD 4 0) (credential_data.getD 5 0)
    (credential_data.getD 6 0) (credential_data.getD 7 0)

/-- The per-type claim-count minimum: the `match credential_type` arms of
`validate_credential_claims`. -/
def requiredClaims (credential_type : Nat) : Nat :=
  match credential_type with
  | 1 => 1
  | 2 => 2
  | 3 => 2
  | 4 => 3
  | 5 => 1
  | _ => 1

/-- `validate_credential_claims` from `main.rs`. -/
def validate_credential_claims (credential_data : Bytes) (credential_type : Nat) : Bool :=
  if credential_data.length < 8 then
    false
  else if versionOf credential_data ≠ 1 then
    false
  else
    decide (claimCountOf credential_data ≥ requiredClaims credential_type)

/-- `validate_credential_claims` with its three failing branches labelled:
short data as `MalformedCredential`, wrong version as `UnsupportedVersion`,
too few claims as `InsufficientClaims`. -/
def validateClaimsE (credential_data : Bytes) (credential_type : Nat) : Except Err Unit :=
  if credential_data.length < 8 then
    .error .MalformedCredential
  else if versionOf credential_data ≠ 1 then
    .error .UnsupportedVersion
  else if claimCountOf credential_data < requiredClaims credential_type then
    .error .InsufficientClaims
  else
    .ok ()

/-! ## Temporal checks and the pipeline (`main.rs` lines 144-205) -/

/-- The temporal segment of `main` (`main.rs` lines 152-164): the asserts
`issued_at > 0` ("Invalid issuance time"), `current_time >= issued_at`
("Current time before issuance"), and when `expires_at > 0` also
`current_time <= expires_at` ("Credential has expired"). -/
def validate_temporal (issued_at expires_at current_time : Nat) : Except Err Unit :=
  if issued_at = 0 then
    .error .InvalidIssuance
  else if current_time < issued_at then
    .error .ClockSkew
  else if expires_at ≠ 0 ∧ expires_at < current_time then
    .error .Expired
  else
    .ok ()

/-- `main` from `program/src/main.rs` as a function of the input record: the
`assert!` chain in source order (credential type, temporal, signature,
claims), then hash computation and output construction. An `assert!` failure
is an abort carrying the failing check. -/
def program (input : CredentialInput) : Except Err PublicOutput :=
  if input.credential_type = 0 then
    .error .InvalidCredentialType
  else match validate_temporal input.issued_at input.expires_at input.current_time with
    | .error e => .error e
    | .ok _ =>
      match verifySignatureE input.signature input.issuer_pubkey with
      | .error e => .error e
      | .ok _ =>
        match validateClaimsE input.credential_data input.credential_type with
        | .error e => .error e
        | .ok _ =>
          .ok
            { subject := input.subject
              credential_type := input.credential_type
              credential_hash := compute_credential_hash input.subject input.credential_type
                input.credential_data input.issuer_pubkey
              issued_at := input.issued_at
              expires_at := input.expires_at }

/-- The bytes of the five `sp1_zkvm::io::commit` calls (`main.rs` lines
200-204), in order, as decoded by `script/src/bin/execute.rs` lines 76-97:
`subject` raw, `credential_type` as 4 little-endian bytes, `credential_hash`
raw, `issued_at` and `expires_at` as 8 little-endian bytes each. -/
def commitBytes (output : PublicOutput) : Bytes :=
  output.subject ++ u32le output.credential_type ++ output.credential_hash
    ++ u64le output.issued_at ++ u64le output.expires_at

/-- One full run: the committed public bytes on success, nothing on abort. -/
def runCommitted (input : CredentialInput) : Option Bytes :=
  match program input with
  | .ok output => some (commitBytes output)
  | .error _ => none

/-- Modelled from the spec: the check order claim C6 states — temporal checks
first, then the signature structural check, then the claims check, with the
first failure determining the abort reason and no check before the temporal
ones. Stated only for comparison with `program`, whose first check is the
credential-type assert. -/
def specOrderedChecks (input : CredentialInput) : Except Err Unit :=
  match validate_temporal input.issued_at input.expires_at input.current_time with
  | .error e => .error e
  | .ok _ =>
    match verifySignatureE input.signature input.issuer_pubkey with
    | .error e => .error e
    | .ok _ =>
      match validateClaimsE input.credential_data input.credential_type with
      | .error e => .error e
      | .ok _ => .ok ()

/-- The validation outcome of a run, with the committed output forgotten. -/
def checksOutcome (input : CredentialInput) : Except Err Unit :=
  (program input).map fun _ => ()

/-! ## Concrete inputs for witnesses and counterexamples -/

/-- A fully valid sample input: subject `0x1234…7890` (20 bytes), credential
type 2, credential data `version 1 ‖ claim_count 2`, a 64-byte zero
signature, a 33-byte compressed public key. -/
def sampleInput : CredentialInput :=
  { subject := [0x12, 0x34, 0x56, 0x78, 0x90, 0x12, 0x34, 0x56, 0x78, 0x90,
                0x12, 0x34, 0x56, 0x78, 0x90, 0x12, 0x34, 0x56, 0x78, 0x90]
    credential_type := 2
    credential_data := [0, 0, 0, 1, 0, 0, 0, 2]
    signature := List.replicate 64 0
    issuer_pubkey := List.replicate 33 2
    issued_at := 100
    expires_at := 200
    current_time := 150 }

/-- The public output `program` produces on `sampleInput`. -/
def sampleOutput : PublicOutput :=
  { subject := sampleInput.subject
    credential_type := 2
    credential_hash := compute_credential_hash sampleInput.subject 2
      sampleInput.credential_data sampleInput.issuer_pubkey
    issued_at := 100
    expires_at := 200 }

/-- An input whose `credential_type` is 0 and whose `issued_at` is 0: the
source aborts on the credential-type assert before any temporal check. -/
def badTypeInput : CredentialInput :=
  { subject := List.replicate 20 0
    credential_type := 0
    credential_data := [0, 0, 0, 1, 0, 0, 0, 2]
    signature := List.replicate 64 0
    issuer_pubkey := List.replicate 33 2
    issued_at := 0
    expires_at := 0
    current_time := 0 }

/-- An input passing the type and temporal checks whose signature (32 bytes)
and claims data (version 2) are both invalid. -/
def badSigAndClaimsInput : CredentialInput :=
  { subject := List.replicate 20 0
    credential_type := 2
    credential_data := [0, 0, 0, 2, 0, 0, 0, 2]
    signature := List.replicate 32 0
    issuer_pubkey := List.replicate 33 2
    issued_at := 100
    expires_at := 200
    current_time := 150 }

/-- An input with `issued_at = 0` but a positive credential type. -/
def zeroIssuedInput : CredentialInput :=
  { badTypeInput with credential_type := 7, issued_at := 0 }

/-! ## Helper lemmas -/

/-- The digest always has exactly 32 bytes. -/
theorem sha256_length (msg : Bytes) : (sha256 msg).length = 32 := by
  simp [sha256, digestBytes, u32be]

/-- FIPS 180-4 test vector: SHA-256 of `"abc"`. -/
example : sha256 [0x61, 0x62, 0x63] =
    [0xba, 0x78, 0x16, 0xbf, 0x8f, 0x01, 0xcf, 0xea, 0x41, 0x41, 0x40, 0xde, 0x5d, 0xae, 0x22, 0x23,
     0xb0, 0x03, 0x61, 0xa3, 0x96, 0x17, 0x7a, 0x9c, 0xb4, 0x10, 0xff, 0x61, 0xf2, 0x00, 0x15, 0xad] := by
  decide

/-- FIPS 180-4 test vector: SHA-256 of the empty string. -/
example : sha256 [] =
    [0xe3, 0xb0, 0xc4, 0x42, 0x98, 0xfc, 0x1c, 0x14, 0x9a, 0xfb, 0xf4, 0xc8, 0x99, 0x6f, 0xb9, 0x24,
     0x27, 0xae, 0x41, 0xe4, 0x64, 0x9b, 0x93, 0x4c, 0xa4, 0x95, 0x99, 0x1b, 0x78, 0x52, 0xb8, 0x55] := by
  decide

/-- The labelled checker succeeds exactly when the source's boolean one does. -/
theorem verify_signature_iff (message signature pubkey : Bytes) :
    verify_signature message signature pubkey = true ↔
      verifySignatureE signature pubkey = .ok () := by
  unfold verify_signature verifySignatureE
  split
  · simp
  · split <;> simp_all <;> tauto

/-- The labelled claims validator succeeds exactly when the boolean one does. -/
theorem validate_claims_iff (credential_data : Bytes) (credential_type : Nat) :
    validate_credential_claims credential_data credential_type = true ↔
      validateClaimsE credential_data credential_type = .ok () := by
  unfold validate_credential_claims validateClaimsE
  split <;> simp_all <;> split <;> simp_all <;> omega

/-- The accumulated hasher input is the plain concatenation of the four
updated fields. -/
theorem compute_credential_hash_concat (subject : Bytes) (t : Nat) (data pk : Bytes) :
    compute_credential_hash subject t data pk = sha256 (subject ++ u32be t ++ data ++ pk) := by
  simp [compute_credential_hash, List.append_assoc]

/-- The credential hash has exactly 32 bytes. -/
theorem compute_credential_hash_length (subject : Bytes) (t : Nat) (data pk : Bytes) :
    (compute_credential_hash subject t data pk).length = 32 := by
  rw [compute_credential_hash_concat]; exact sha256_length _

/-- Once both signatures are at least 64 bytes long, the structural check
cannot tell them apart. -/
theorem verifySignatureE_length_only (s s2 p : Bytes)
    (h1 : 64 ≤ s.length) (h2 : 64 ≤ s2.length) :
    verifySignatureE s p = verifySignatureE s2 p := by
  have e1 : s.isEmpty = false := by
    cases s with
    | nil => simp at h1
    | cons a l => simp
  have e2 : s2.isEmpty = false := by
    cases s2 with
    | nil => simp at h2
    | cons a l => simp
  unfold verifySignatureE
  simp [e1, e2, Nat.not_lt.mpr h1, Nat.not_lt.mpr h2]

/-- `program` succeeds only with the output record built from the input:
the input's subject, credential type and timestamps, and the credential
hash of the input's fields. -/
theorem program_ok_inv (input : CredentialInput) (output : PublicOutput)
    (h : program input = .ok output) :
    output =
      { subject := input.subject
        credential_type := input.credential_type
        credential_hash := compute_credential_hash input.subject input.credential_type
          input.credential_data input.issuer_pubkey
        issued_at := input.issued_at
        expires_at := input.expires_at } := by
  unfold program at h
  repeat' split at h
  all_goals first
  | exact Except.noConfusion h
  | · injection h with h
      exact h.symm

/-! ## Claim theorems -/

/-- C2: `compute_credential_hash(subject, credential_type, credential_data,
issuer_pubkey)` returns the 32-byte SHA-256 digest of the exact byte
concatenation, in order: subject, then `credential_type` as 4 big-endian
bytes, then `credential_data` as given, then `issuer_pubkey` as given. -/
theorem claim_hash_is_sha256_of_concat (subject : Bytes) (t : Nat) (data pk : Bytes) :
    compute_credential_hash subject t data pk = sha256 (subject ++ u32be t ++ data ++ pk) ∧
    (compute_credential_hash subject t data pk).length = 32 :=
  ⟨compute_credential_hash_concat subject t data pk,
   compute_credential_hash_length subject t data pk⟩

/-- Witness for C2 at the sample fields. -/
theorem claim_hash_is_sha256_of_concat_witness :
    compute_credential_hash sampleInput.subject 2 sampleInput.credential_data
        sampleInput.issuer_pubkey
      = sha256 (sampleInput.subject ++ u32be 2 ++ sampleInput.credential_data
          ++ sampleInput.issuer_pubkey) ∧
    (compute_credential_hash sampleInput.subject 2 sampleInput.credential_data
        sampleInput.issuer_pubkey).length = 32 :=
  claim_hash_is_sha256_of_concat sampleInput.subject 2 sampleInput.credential_data
    sampleInput.issuer_pubkey

/-- C3: temporal validation fails with `InvalidIssuance` iff `issued_at = 0`;
with `ClockSkew` iff `issued_at > 0` and `current_time < issued_at`; with
`Expired` iff the previous checks pass, `expires_at ≠ 0` and
`current_time > expires_at`; boundaries are inclusive
(`current_time = issued_at` and `current_time = expires_at` pass,
`current_time = expires_at + 1` with `expires_at ≠ 0` fails with `Expired`),
and `expires_at = 0` never produces `Expired`. -/
theorem claim_temporal_validation (ia ea ct : Nat) :
    (validate_temporal ia ea ct = .error .InvalidIssuance ↔ ia = 0) ∧
    (validate_temporal ia ea ct = .error .ClockSkew ↔ 0 < ia ∧ ct < ia) ∧
    (validate_temporal ia ea ct = .error .Expired ↔
      0 < ia ∧ ia ≤ ct ∧ ea ≠ 0 ∧ ea < ct) ∧
    (validate_temporal ia ea ct = .ok () ↔ 0 < ia ∧ ia ≤ ct ∧ (ea = 0 ∨ ct ≤ ea)) ∧
    (ia ≠ 0 → (ea = 0 ∨ ia ≤ ea) → validate_temporal ia ea ia = .ok ()) ∧
    (ia ≠ 0 → ea ≠ 0 → ia ≤ ea → validate_temporal ia ea ea = .ok ()) ∧
    (ia ≠ 0 → ea ≠ 0 → ia ≤ ea + 1 → validate_temporal ia ea (ea + 1) = .error .Expired) ∧
    validate_temporal ia 0 ct ≠ .error .Expired := by
  refine ⟨?_, ?_, ?_, ?_, ?_, ?_, ?_, ?_⟩ <;>
    · unfold validate_temporal
      intros
      split_ifs <;> simp_all <;> omega

/-- Witness for C3 at `issued_at = 5`, `expires_at = 10`. -/
theorem claim_temporal_validation_witness :
    validate_temporal 5 10 5 = .ok () ∧ validate_temporal 5 10 10 = .ok () ∧
    validate_temporal 5 10 11 = .error .Expired ∧
    validate_temporal 5 0 999 ≠ .error .Expired ∧
    validate_temporal 0 10 5 = .error .InvalidIssuance ∧
    validate_temporal 5 10 4 = .error .ClockSkew := by
  obtain ⟨h1, h2, -, -, h5, h6, h7, -⟩ := claim_temporal_validation 5 10 4
  obtain ⟨-, -, -, -, -, -, -, h8⟩ := claim_temporal_validation 5 0 999
  obtain ⟨h9, -, -, -, -, -, -, -⟩ := claim_temporal_validation 0 10 5
  exact ⟨h5 (by decide) (by decide), h6 (by decide) (by decide) (by decide),
    h7 (by decide) (by decide) (by decide), h8, h9.mpr rfl, h2.mpr (by decide)⟩

/-- C4: claims validation fails with `MalformedCredential` iff the data is
shorter than 8 bytes; otherwise with `UnsupportedVersion` iff the big-endian
`version` in bytes 0-3 is not 1; otherwise with `InsufficientClaims` iff the
big-endian `claim_count` in bytes 4-7 is below the per-type minimum
(`1→1`, `2→2`, `3→2`, `4→3`, `5→1`, any other type `→1`); type 2 with
`claim_count = 1` fails, with `claim_count = 2` passes. -/
theorem claim_claims_validation (cd : Bytes) (t : Nat) :
    (validateClaimsE cd t = .error .MalformedCredential ↔ cd.length < 8) ∧
    (validateClaimsE cd t = .error .UnsupportedVersion ↔
      8 ≤ cd.length ∧ versionOf cd ≠ 1) ∧
    (validateClaimsE cd t = .error .InsufficientClaims ↔
      8 ≤ cd.length ∧ versionOf cd = 1 ∧ claimCountOf cd < requiredClaims t) ∧
    (validateClaimsE cd t = .ok () ↔
      8 ≤ cd.length ∧ versionOf cd = 1 ∧ requiredClaims t ≤ claimCountOf cd) ∧
    (validate_credential_claims cd t = true ↔ validateClaimsE cd t = .ok ()) ∧
    requiredClaims 1 = 1 ∧ requiredClaims 2 = 2 ∧ requiredClaims 3 = 2 ∧
    requiredClaims 4 = 3 ∧ requiredClaims 5 = 1 ∧
    (t = 0 ∨ 6 ≤ t → requiredClaims t = 1) ∧
    validateClaimsE [0, 0, 0, 1, 0, 0, 0, 1] 2 = .error .InsufficientClaims ∧
    validateClaimsE [0, 0, 0, 1, 0, 0, 0, 2] 2 = .ok () := by
  have hmin : t = 0 ∨ 6 ≤ t → requiredClaims t = 1 := by
    intro h
    rcases t with _ | _ | _ | _ | _ | _ | n <;> first | rfl | omega
  refine ⟨?_, ?_, ?_, ?_, validate_claims_iff cd t, rfl, rfl, rfl, rfl, rfl, hmin, by decide,
    by decide⟩ <;>
    · unfold validateClaimsE
      split_ifs <;> simp_all <;> omega

/-- Witness for C4: the per-type minimum for types 0 and 9, and the
threshold behaviour at type 2. -/
theorem claim_claims_validation_witness :
    requiredClaims 0 = 1 ∧ requiredClaims 9 = 1 ∧
    validateClaimsE [0, 0, 0, 1, 0, 0, 0, 1] 2 = .error .InsufficientClaims ∧
    validateClaimsE [0, 0, 0, 1, 0, 0, 0, 2] 2 = .ok () ∧
    validateClaimsE [] 2 = .error .MalformedCredential := by
  obtain ⟨hm, -, -, -, -, -, -, -, -, -, -, h1, h2⟩ := claim_claims_validation [] 2
  obtain ⟨-, -, -, -, -, -, -, -, -, -, h0, -, -⟩ := claim_claims_validation [] 0
  obtain ⟨-, -, -, -, -, -, -, -, -, -, h9, -, -⟩ := claim_claims_validation [] 9
  exact ⟨h0 (Or.inl rfl), h9 (Or.inr (by decide)), h1, h2, hm.mpr (by decide)⟩

/-- C5: the signature structural check fails with `InvalidSignature` iff the
signature is empty or shorter than 64 bytes; otherwise with
`InvalidPublicKey` iff the pubkey length is neither 33 nor 65; when both
length checks pass it succeeds unconditionally for every message — the
message never influences the result; a 63-byte signature fails, a 64-byte
signature with a 33-byte pubkey passes. -/
theorem claim_signature_structural (m m2 s p : Bytes) :
    (verifySignatureE s p = .error .InvalidSignature ↔ s.length < 64) ∧
    (verifySignatureE s p = .error .InvalidPublicKey ↔
      64 ≤ s.length ∧ p.length ≠ 33 ∧ p.length ≠ 65) ∧
    (verifySignatureE s p = .ok () ↔ 64 ≤ s.length ∧ (p.length = 33 ∨ p.length = 65)) ∧
    (verify_signature m s p = true ↔ 64 ≤ s.length ∧ (p.length = 33 ∨ p.length = 65)) ∧
    verify_signature m s p = verify_signature m2 s p ∧
    verifySignatureE (List.replicate 63 0) (List.replicate 33 2) = .error .InvalidSignature ∧
    verifySignatureE (List.replicate 64 0) (List.replicate 33 2) = .ok () := by
  have hb : verify_signature m s p = verify_signature m2 s p := by
    unfold verify_signature; rfl
  have hok : verifySignatureE s p = .ok () ↔
      64 ≤ s.length ∧ (p.length = 33 ∨ p.length = 65) := by
    unfold verifySignatureE
    split_ifs <;> simp_all [← List.length_eq_zero] <;> omega
  have hbool : verify_signature m s p = true ↔
      64 ≤ s.length ∧ (p.length = 33 ∨ p.length = 65) :=
    (verify_signature_iff m s p).trans hok
  refine ⟨?_, ?_, hok, hbool, hb, by decide, by decide⟩ <;>
    · unfold verifySignatureE
      split_ifs <;> simp_all [← List.length_eq_zero] <;> omega

/-- Witness for C5: a 63-byte signature fails with `InvalidSignature`; a
64-byte signature with a 33-byte pubkey passes, whatever the message. -/
theorem claim_signature_structural_witness :
    verifySignatureE (List.replicate 63 0) (List.replicate 33 2) = .error .InvalidSignature ∧
    verifySignatureE (List.replicate 64 0) (List.replicate 33 2) = .ok () ∧
    verify_signature [1, 2, 3] (List.replicate 64 0) (List.replicate 33 2) = true := by
  obtain ⟨-, -, -, hbool, -, h63, h64⟩ :=
    claim_signature_structural [1, 2, 3] [] (List.replicate 64 0) (List.replicate 33 2)
  exact ⟨h63, h64, hbool.mpr (by decide)⟩

/-- C1: on every successful run the committed public output is exactly the
72-byte fixed layout with no padding: `subject` (20 raw bytes), then
`credential_type` (4 little-endian bytes), then `credential_hash` (32 raw
bytes), then `issued_at` (8 little-endian bytes), then `expires_at`
(8 little-endian bytes). -/
theorem claim_commit_layout (input : CredentialInput) (output : PublicOutput)
    (hsub : input.subject.length = 20) (hrun : program input = .ok output) :
    runCommitted input = some (commitBytes output) ∧
    commitBytes output =
      input.subject ++ u32le input.credential_type
        ++ compute_credential_hash input.subject input.credential_type
            input.credential_data input.issuer_pubkey
        ++ u64le input.issued_at ++ u64le input.expires_at ∧
    (commitBytes output).length = 72 := by
  have ho := program_ok_inv input output hrun
  subst ho
  refine ⟨by simp [runCommitted, hrun], rfl, ?_⟩
  simp [commitBytes, u32le, u64le, hsub, compute_credential_hash_length]

set_option maxRecDepth 8192 in
/-- Witness for C1: the sample run succeeds and commits the 72-byte layout. -/
theorem claim_commit_layout_witness :
    runCommitted sampleInput = some (commitBytes sampleOutput) ∧
    commitBytes sampleOutput =
      sampleInput.subject ++ u32le sampleInput.credential_type
        ++ compute_credential_hash sampleInput.subject sampleInput.credential_type
            sampleInput.credential_data sampleInput.issuer_pubkey
        ++ u64le sampleInput.issued_at ++ u64le sampleInput.expires_at ∧
    (commitBytes sampleOutput).length = 72 :=
  claim_commit_layout sampleInput sampleOutput (by decide) (by decide)

/-- C6, counterexample: the claim says temporal checks run first and the
first failing check determines the abort reason, but on an input with
`credential_type = 0` and `issued_at = 0` the run aborts on the source's
credential-type assert, not with the temporal `InvalidIssuance` the stated
order predicts. -/
theorem claim_check_order_counterexample :
    checksOutcome badTypeInput ≠ specOrderedChecks badTypeInput ∧
    badTypeInput.issued_at = 0 ∧
    program badTypeInput = .error .InvalidCredentialType ∧
    specOrderedChecks badTypeInput = .error .InvalidIssuance := by
  decide

/-- C6, amended: checks execute in the fixed order credential-type
positivity first, then temporal, then signature structural, then claims,
and the first failing check determines the abort reason; once
`credential_type` is positive the ordering of the claim holds as stated. -/
theorem claim_check_order_amended (input : CredentialInput) (e : Err) :
    (input.credential_type = 0 → program input = .error .InvalidCredentialType) ∧
    (input.credential_type ≠ 0 → checksOutcome input = specOrderedChecks input) ∧
    (input.credential_type ≠ 0 →
      validate_temporal input.issued_at input.expires_at input.current_time = .error e →
      program input = .error e) ∧
    (input.credential_type ≠ 0 →
      validate_temporal input.issued_at input.expires_at input.current_time = .ok () →
      verifySignatureE input.signature input.issuer_pubkey = .error e →
      program input = .error e) ∧
    (input.credential_type ≠ 0 →
      validate_temporal input.issued_at input.expires_at input.current_time = .ok () →
      verifySignatureE input.signature input.issuer_pubkey = .ok () →
      validateClaimsE input.credential_data input.credential_type = .error e →
      program input = .error e) := by
  refine ⟨?_, ?_, ?_, ?_, ?_⟩
  · intro h0
    unfold program
    rw [if_pos h0]
  · intro h0
    unfold checksOutcome program specOrderedChecks
    rw [if_neg h0]
    cases validate_temporal input.issued_at input.expires_at input.current_time with
    | error e2 => rfl
    | ok u =>
      cases verifySignatureE input.signature input.issuer_pubkey with
      | error e2 => rfl
      | ok u2 =>
        cases validateClaimsE input.credential_data input.credential_type with
        | error e2 => rfl
        | ok u3 => rfl
  · intro h0 ht
    unfold program
    rw [if_neg h0, ht]
  · intro h0 ht hs
    unfold program
    rw [if_neg h0, ht, hs]
  · intro h0 ht hs hc
    unfold program
    rw [if_neg h0, ht, hs, hc]

/-- Witness for C6 (amended): an input failing both the signature check
(32-byte signature) and the claims check (version 2) aborts with the
signature error. -/
theorem claim_check_order_witness :
    verifySignatureE badSigAndClaimsInput.signature badSigAndClaimsInput.issuer_pubkey
      = .error .InvalidSignature ∧
    validateClaimsE badSigAndClaimsInput.credential_data badSigAndClaimsInput.credential_type
      = .error .UnsupportedVersion ∧
    program badSigAndClaimsInput = .error .InvalidSignature := by
  have h := (claim_check_order_amended badSigAndClaimsInput Err.InvalidSignature).2.2.2.1
  exact ⟨by decide, by decide, h (by decide) (by decide) (by decide)⟩

/-- C7, counterexample: the claim says `issued_at = 0` aborts with
`InvalidIssuance` regardless of all other fields including
`credential_type`, but with `credential_type = 0` the run aborts on the
credential-type assert instead. -/
theorem claim_invalid_issuance_counterexample :
    badTypeInput.issued_at = 0 ∧
    program badTypeInput ≠ .error .InvalidIssuance ∧
    program badTypeInput = .error .InvalidCredentialType := by
  decide

/-- C7, amended: for every input with `issued_at = 0` and a positive
`credential_type`, regardless of all other fields, the run aborts with
`InvalidIssuance`. -/
theorem claim_invalid_issuance_amended (input : CredentialInput)
    (htype : input.credential_type ≠ 0) (h : input.issued_at = 0) :
    program input = .error .InvalidIssuance := by
  unfold program
  rw [if_neg htype]
  unfold validate_temporal
  rw [if_pos h]

/-- Witness for C7 (amended): `issued_at = 0` with credential type 7. -/
theorem claim_invalid_issuance_witness :
    program zeroIssuedInput = .error .InvalidIssuance :=
  claim_invalid_issuance_amended zeroIssuedInput (by decide) (by decide)

/-- C8: the outcome is all-or-nothing — a run commits bytes exactly when
every check passes, the committed bytes are the full encoded output
(72 bytes for a 20-byte subject), and an aborted run commits nothing. -/
theorem claim_atomicity (input : CredentialInput) :
    ((∃ e, program input = .error e) ↔ runCommitted input = none) ∧
    (∀ output, program input = .ok output →
      runCommitted input = some (commitBytes output)) ∧
    (∀ bs, runCommitted input = some bs →
      ∃ output, program input = .ok output ∧ bs = commitBytes output) ∧
    (input.subject.length = 20 → ∀ bs, runCommitted input = some bs → bs.length = 72) := by
  unfold runCommitted
  cases hp : program input with
  | error e =>
    refine ⟨by simp, ?_, by simp, by simp⟩
    intro output h
    exact Except.noConfusion h
  | ok output =>
    have ho := program_ok_inv input output hp
    refine ⟨by simp, ?_, ?_, ?_⟩
    · intro output2 h2
      injection h2 with h2
      subst h2
      rfl
    · intro bs hbs
      injection hbs with hbs
      exact ⟨output, rfl, hbs.symm⟩
    · intro hsub bs hbs
      injection hbs with hbs
      rw [← hbs, ho]
      simp [commitBytes, u32le, u64le, hsub, compute_credential_hash_length]

set_option maxRecDepth 8192 in
/-- Witness for C8: the sample input commits the full 72 bytes; the
bad-type input commits nothing. -/
theorem claim_atomicity_witness :
    runCommitted sampleInput = some (commitBytes sampleOutput) ∧
    (commitBytes sampleOutput).length = 72 ∧
    runCommitted badTypeInput = none := by
  obtain ⟨-, hsome, -, hlen⟩ := claim_atomicity sampleInput
  obtain ⟨hnone, -, -, -⟩ := claim_atomicity badTypeInput
  have h1 := hsome sampleOutput (by decide)
  exact ⟨h1, hlen (by decide) (commitBytes sampleOutput) h1,
    hnone.mp ⟨Err.InvalidCredentialType, by decide⟩⟩

/-- C9: the pipeline is deterministic — identical inputs give identical
validation outcomes, identical committed bytes, and identical 32-byte
credential hashes. -/
theorem claim_deterministic (i1 i2 : CredentialInput) (h : i1 = i2) :
    program i1 = program i2 ∧
    runCommitted i1 = runCommitted i2 ∧
    compute_credential_hash i1.subject i1.credential_type i1.credential_data i1.issuer_pubkey
      = compute_credential_hash i2.subject i2.credential_type i2.credential_data
          i2.issuer_pubkey ∧
    (compute_credential_hash i1.subject i1.credential_type i1.credential_data
        i1.issuer_pubkey).length = 32 := by
  subst h
  exact ⟨rfl, rfl, rfl, compute_credential_hash_length _ _ _ _⟩

/-- Witness for C9 at the sample input. -/
theorem claim_deterministic_witness :
    program sampleInput = program sampleInput ∧
    runCommitted sampleInput = runCommitted sampleInput ∧
    compute_credential_hash sampleInput.subject sampleInput.credential_type
        sampleInput.credential_data sampleInput.issuer_pubkey
      = compute_credential_hash sampleInput.subject sampleInput.credential_type
          sampleInput.credential_data sampleInput.issuer_pubkey ∧
    (compute_credential_hash sampleInput.subject sampleInput.credential_type
        sampleInput.credential_data sampleInput.issuer_pubkey).length = 32 :=
  claim_deterministic sampleInput sampleInput rfl

/-- C10: the committed output does not depend on the signature contents —
replacing the signature by any other one of length at least 64 leaves the
whole run (outcome and committed bytes) unchanged. -/
theorem claim_signature_independence (input : CredentialInput) (s2 : Bytes)
    (h1 : 64 ≤ input.signature.length) (h2 : 64 ≤ s2.length) :
    program { input with signature := s2 } = program input ∧
    runCommitted { input with signature := s2 } = runCommitted input := by
  have hs : verifySignatureE s2 input.issuer_pubkey
      = verifySignatureE input.signature input.issuer_pubkey :=
    verifySignatureE_length_only s2 input.signature input.issuer_pubkey h2 h1
  have hp : program { input with signature := s2 } = program input := by
    unfold program
    dsimp only
    rw [hs]
  exact ⟨hp, by unfold runCommitted; rw [hp]⟩

/-- Witness for C10: replacing the sample 64-byte zero signature by seventy
`9` bytes changes nothing. -/
theorem claim_signature_independence_witness :
    program { sampleInput with signature := List.replicate 70 9 } = program sampleInput ∧
    runCommitted { sampleInput with signature := List.replicate 70 9 }
      = runCommitted sampleInput :=
  claim_signature_independence sampleInput (List.replicate 70 9) (by decide) (by decide)

end Credence
